import Mathlib

/-!
Shallow embedding of `kmsgrab.c` (KMS/DRM screenshot tool) and proofs about
its pixel-conversion pipeline, output discovery, device location, privilege
drop ordering and output-file lifecycle.

Machine integers are modelled as `Nat` with explicit `% 2^w` where the C code
stores into a narrower type (the `uint8_t` fields of `uint24_t`).  Memory seen
through `void *` is modelled as a list of bytes read little-endian, matching
the C code's reinterpretation of the mapped buffer as `uint16_t *` /
`uint32_t *` arrays.  The side-effecting parts of `main` / `save_png` are
modelled as pure functions from an environment (recording the outcome of every
external call) to a run result: an outcome, an event trace, the final state of
the output file and the arguments handed to the PNG image sink.
-/

namespace Kmsgrab

/-- The `uint24_t` struct of kmsgrab.c: three 8-bit channels r, g, b.
Fields are `Nat`; the conversion functions apply `% 256` where the C code
assigns into the `uint8_t` fields. -/
structure uint24_t where
  r : Nat
  g : Nat
  b : Nat
  deriving DecidableEq, Repr

/-- `rgb16_to_24` from kmsgrab.c: convert one RGB565 pixel to 24-bit.
`pixel.b = (px & 0x1f) << 3; pixel.g = (px & 0x7e0) >> 3;
 pixel.r = (px & 0xf800) >> 8;` each stored into a `uint8_t`. -/
def rgb16_to_24 (px : Nat) : uint24_t :=
  { b := ((px &&& 0x1f) <<< 3) % 256
    g := ((px &&& 0x7e0) >>> 3) % 256
    r := ((px &&& 0xf800) >>> 8) % 256 }

/-- `rgb32_to_24` from kmsgrab.c: convert one XRGB8888 pixel to 24-bit.
`pixel.b = px & 0xff; pixel.g = (px >> 8) & 0xff; pixel.r = (px >> 16) & 0xff;`
each stored into a `uint8_t`. -/
def rgb32_to_24 (px : Nat) : uint24_t :=
  { b := (px &&& 0xff) % 256
    g := ((px >>> 8) &&& 0xff) % 256
    r := ((px >>> 16) &&& 0xff) % 256 }

/-- The fields of `drmModeFB` used by kmsgrab.c. -/
structure drmModeFB where
  width : Nat
  height : Nat
  bpp : Nat
  handle : Nat
  deriving DecidableEq, Repr

/-- Read a little-endian machine word from a list of bytes
(the C code reads native `uint16_t` / `uint32_t` values out of the mapped
buffer; little-endian byte order is assumed for the byte-level model). -/
def readLE (bytes : List Nat) : Nat :=
  bytes.foldr (fun b acc => b + 256 * acc) 0

/-- Read `len` consecutive `n`-byte little-endian words from a byte list,
modelling the C pointer walk `*ptr++` over the mapped buffer. -/
def readWords (n : Nat) : Nat → List Nat → List Nat
  | 0, _ => []
  | len + 1, mem => readLE (mem.take n) :: readWords n len (mem.drop n)

/-- `convert_to_24` from kmsgrab.c.  `len = fb->width * fb->height`; if
`fb->bpp == 16` the buffer is walked as `uint16_t *` through `rgb16_to_24`,
otherwise (any other bpp, with no further check) it is walked as `uint32_t *`
through `rgb32_to_24`. -/
def convert_to_24 (fb : drmModeFB) (mem : List Nat) : List uint24_t :=
  let len := fb.width * fb.height
  if fb.bpp = 16 then
    (readWords 2 len mem).map rgb16_to_24
  else
    (readWords 4 len mem).map rgb32_to_24

/-- The byte layout of one `uint24_t` in the destination array:
the struct fields in declaration order r, g, b. -/
def pixelBytes (p : uint24_t) : List Nat :=
  [p.r, p.g, p.b]

/-- The destination buffer of `convert_to_24` viewed as a flat byte list:
`width * height` pixels times 3 bytes, row-major, no padding. -/
def convertBytes (fb : drmModeFB) (mem : List Nat) : List Nat :=
  ((convert_to_24 fb mem).map pixelBytes).flatten

/-- Device-handle events of the card-scan loop in `main`:
`open("/dev/dri/card<c>")` and `close` of that descriptor. -/
inductive DevEvent where
  | openDev (c : Nat)
  | closeDev (c : Nat)
  deriving DecidableEq, Repr

/-- The card-scan loop of `main` (`for (card = 0; ; card++)`), starting at
card index `start`.  `cards` lists, for each card index that opens
successfully, whether `DRM_CAP_DUMB_BUFFER` is reported; opening the card
just past the end of the list fails, which aborts the scan.  A card without
the capability is closed and the scan continues; a card with the capability
ends the loop via `break`, leaving its descriptor open. -/
def scan_loop : List Bool → Nat → Option Nat × List DevEvent
  | [], _ => (none, [])
  | cap :: rest, start =>
    if cap then (some start, [DevEvent.openDev start])
    else
      let r := scan_loop rest (start + 1)
      (r.1, DevEvent.openDev start :: DevEvent.closeDev start :: r.2)

/-- The device-location phase of `main`: the scan loop, followed by the
unconditional re-`open` of the selected card's path (`drm_fd = open(buf, ...)`
straight after the loop), which opens the same device a second time. -/
def locate_device (cards : List Bool) : Option Nat × List DevEvent :=
  match scan_loop cards 0 with
  | (none, evs) => (none, evs)
  | (some s, evs) => (some s, evs ++ [DevEvent.openDev s])

/-- Net number of descriptors to card `c` still open after the events
`evs`: opens minus closes. -/
def openHandles (c : Nat) (evs : List DevEvent) : Int :=
  (evs.count (DevEvent.openDev c) : Int) - (evs.count (DevEvent.closeDev c) : Int)

/-- Result of the CRTC scan loop in `main`.  For each CRTC the loop calls
`drmModeGetCrtc` and immediately reads `crtc->buffer_id` with no NULL check,
so a failed query is a NULL-pointer dereference (`crash`). -/
inductive CrtcScan where
  | found (fb_id : Nat)
  | noneFound
  | crash
  deriving DecidableEq, Repr

/-- The CRTC loop of `main` over the query results for `res->crtcs`, in
enumeration order: entry `none` means `drmModeGetCrtc` returned NULL (the
unchecked `crtc->buffer_id` read then crashes); entry `some bid` is a CRTC
whose `buffer_id` is `bid`.  The loop breaks at the first non-zero
`buffer_id`; exhausting the list means no active CRTC. -/
def find_crtc : List (Option Nat) → CrtcScan
  | [] => CrtcScan.noneFound
  | none :: _ => CrtcScan.crash
  | some bid :: rest =>
    if bid ≠ 0 then CrtcScan.found bid else find_crtc rest

/-- Observable events of one run, in program order: acquiring the PRIME
export descriptor (`drmPrimeHandleToFD`), mapping the buffer (`mmap`),
dropping privileges (`seteuid(getuid())`), opening the output path
(`fopen(png_fn, "w+")`), writing the PNG header (`png_write_info`), handing
the converted image to the sink (`png_write_image`), and closing the output
file (`fclose`). -/
inductive Event where
  | acquireExport
  | mmapBuffer
  | dropPrivileges
  | openOutput
  | writeHeader
  | invokeSink
  | closeOutput
  deriving DecidableEq, Repr

/-- State of the output file at the end of a run: never created; created by
`fopen` but never written; PNG header written but no image data; or complete
(header, image data and end written). -/
inductive FileState where
  | absent
  | empty
  | headerOnly
  | complete
  deriving DecidableEq, Repr

/-- Overall outcome of a run: `EXIT_SUCCESS`, an error exit, or a crash
(NULL-pointer dereference). -/
inductive Outcome where
  | success
  | failure
  | crash
  deriving DecidableEq, Repr

/-- Environment of one run: the outcome of every external interaction, in
the order the program performs them.  `cards` drives the device scan;
`atomicOk` / `planesOk` are the two `drmSetClientCap` calls; `resources` is
`drmModeGetResources` (`none` = NULL) giving the per-CRTC
`drmModeGetCrtc` results; `fbLookup` is `drmModeGetFB` on the selected
framebuffer id; `primeOk` is `drmPrimeHandleToFD`; `mem` is the content of
the mapped buffer; the remaining flags are the fallible steps of
`save_png` (`malloc`, `mmap`, `fopen`, `png_create_write_struct`,
`png_create_info_struct`, the `row_pointers` `malloc`). -/
structure Env where
  cards : List Bool
  atomicOk : Bool
  planesOk : Bool
  resources : Option (List (Option Nat))
  fbLookup : Option drmModeFB
  primeOk : Bool
  mem : List Nat
  mallocPictureOk : Bool
  mmapOk : Bool
  fopenOk : Bool
  pngOk : Bool
  infoOk : Bool
  rowPtrsOk : Bool
  deriving Repr

/-- What one run produces: the exit outcome, the event trace, the final
state of the output file, and the `(width, height, bytes)` the image sink
received (if it was invoked). -/
structure RunResult where
  outcome : Outcome
  events : List Event
  file : FileState
  sink : Option (Nat × Nat × List Nat)
  deriving Repr

/-- `save_png` from kmsgrab.c, as a function of the environment and the
framebuffer metadata.  Mirrors the C control flow: `malloc` the picture;
`mmap` the prime buffer; `seteuid(getuid())`; `fopen` the output path
(creating the file); create the png write and info structs (failing here
leaves the created file empty); `png_write_info` (the header is now on
disk); `convert_to_24`; allocate `row_pointers` (failing here leaves the
file with only its header); `png_write_image` / `png_write_end`.  Cleanup
labels release resources on every path. -/
def save_png (e : Env) (fb : drmModeFB) : RunResult :=
  if ¬e.mallocPictureOk then
    ⟨Outcome.failure, [], FileState.absent, none⟩
  else if ¬e.mmapOk then
    ⟨Outcome.failure, [], FileState.absent, none⟩
  else if ¬e.fopenOk then
    ⟨Outcome.failure, [Event.mmapBuffer, Event.dropPrivileges],
      FileState.absent, none⟩
  else if ¬e.pngOk then
    ⟨Outcome.failure,
      [Event.mmapBuffer, Event.dropPrivileges, Event.openOutput,
        Event.closeOutput],
      FileState.empty, none⟩
  else if ¬e.infoOk then
    ⟨Outcome.failure,
      [Event.mmapBuffer, Event.dropPrivileges, Event.openOutput,
        Event.closeOutput],
      FileState.empty, none⟩
  else if ¬e.rowPtrsOk then
    ⟨Outcome.failure,
      [Event.mmapBuffer, Event.dropPrivileges, Event.openOutput,
        Event.writeHeader, Event.closeOutput],
      FileState.headerOnly, none⟩
  else
    ⟨Outcome.success,
      [Event.mmapBuffer, Event.dropPrivileges, Event.openOutput,
        Event.writeHeader, Event.invokeSink, Event.closeOutput],
      FileState.complete,
      some (fb.width, fb.height, convertBytes fb e.mem)⟩

/-- `main` from kmsgrab.c as a function of the environment: device
location, the two `drmSetClientCap` calls, `drmModeGetResources`, the CRTC
scan, `drmModeGetFB`, `drmPrimeHandleToFD`, then `save_png`.  Every failing
step exits through the cleanup labels with `EXIT_FAILURE`. -/
def main_run (e : Env) : RunResult :=
  match (locate_device e.cards).1 with
  | none => ⟨Outcome.failure, [], FileState.absent, none⟩
  | some _ =>
    if ¬e.atomicOk then ⟨Outcome.failure, [], FileState.absent, none⟩
    else if ¬e.planesOk then ⟨Outcome.failure, [], FileState.absent, none⟩
    else
      match e.resources with
      | none => ⟨Outcome.failure, [], FileState.absent, none⟩
      | some crtcs =>
        match find_crtc crtcs with
        | CrtcScan.crash => ⟨Outcome.crash, [], FileState.absent, none⟩
        | CrtcScan.noneFound => ⟨Outcome.failure, [], FileState.absent, none⟩
        | CrtcScan.found _ =>
          match e.fbLookup with
          | none => ⟨Outcome.failure, [], FileState.absent, none⟩
          | some fb =>
            if ¬e.primeOk then ⟨Outcome.failure, [], FileState.absent, none⟩
            else
              let r := save_png e fb
              ⟨r.outcome, Event.acquireExport :: r.events, r.file, r.sink⟩

/-- An environment in which every external call succeeds: one card with the
dumb-buffer capability, one CRTC with a bound framebuffer, a 1x1 32-bpp
framebuffer whose mapped buffer holds the single pixel 0x00112233. -/
def envAllOk : Env :=
  { cards := [true]
    atomicOk := true
    planesOk := true
    resources := some [some 7]
    fbLookup := some ⟨1, 1, 32, 5⟩
    primeOk := true
    mem := [0x33, 0x22, 0x11, 0x00]
    mallocPictureOk := true
    mmapOk := true
    fopenOk := true
    pngOk := true
    infoOk := true
    rowPtrsOk := true }

/-- Environment whose two CRTCs both report `buffer_id == 0`:
no active output. -/
def envNoActive : Env :=
  { envAllOk with resources := some [some 0, some 0] }

/-- Environment in which `drmModeGetCrtc` returns NULL for the only CRTC. -/
def envCrtcNull : Env :=
  { envAllOk with resources := some [none] }

/-- Environment in which the `row_pointers` allocation in `save_png` fails,
after the output file has been opened and the PNG header written. -/
def envRowPtrsFail : Env :=
  { envAllOk with rowPtrsOk := false }

/-- A 2x2, 32-bpp framebuffer. -/
def fb2x2 : drmModeFB := ⟨2, 2, 32, 9⟩

/-- Little-endian bytes of the four 32-bit pixels
`[0x000000FF, 0x0000FF00, 0x00FF0000, 0x00FFFFFF]`. -/
def mem2x2 : List Nat :=
  [0xff, 0x00, 0x00, 0x00,
   0x00, 0xff, 0x00, 0x00,
   0x00, 0x00, 0xff, 0x00,
   0xff, 0xff, 0xff, 0x00]

/-- A 1x1 framebuffer reporting 24 bits per pixel (neither 16 nor 32). -/
def fb24 : drmModeFB := ⟨1, 1, 24, 0⟩

end Kmsgrab

namespace Kmsgrab

lemma and_le_of_right_le {a b c : Nat} (h : b ≤ c) : a &&& b ≤ c :=
  le_trans Nat.and_le_right h

lemma rgb16_b_lt (px : Nat) : (px &&& 0x1f) <<< 3 < 256 := by
  have h : px &&& 0x1f ≤ 0x1f := Nat.and_le_right
  simp only [Nat.shiftLeft_eq]
  omega

lemma rgb16_g_lt (px : Nat) : (px &&& 0x7e0) >>> 3 < 256 := by
  have h : px &&& 0x7e0 ≤ 0x7e0 := Nat.and_le_right
  simp only [Nat.shiftRight_eq_div_pow]
  omega

lemma rgb16_r_lt (px : Nat) : (px &&& 0xf800) >>> 8 < 256 := by
  have h : px &&& 0xf800 ≤ 0xf800 := Nat.and_le_right
  simp only [Nat.shiftRight_eq_div_pow]
  omega

/-- **C1.** For every 16-bit source pixel `px`, the 16-bit-to-24-bit
conversion produces exactly `b = (px &&& 0x1F) <<< 3`,
`g = (px &&& 0x7E0) >>> 3`, `r = (px &&& 0xF800) >>> 8`, with no rounding or
dithering; in particular `px = 0xFFFF` yields `(r, g, b) = (248, 252, 248)`. -/
theorem rgb16_to_24_exact :
    (∀ px : Nat, px < 65536 →
      rgb16_to_24 px =
        ⟨(px &&& 0xf800) >>> 8, (px &&& 0x7e0) >>> 3, (px &&& 0x1f) <<< 3⟩) ∧
    rgb16_to_24 0xffff = ⟨248, 252, 248⟩ := by
  constructor
  · intro px _
    simp only [rgb16_to_24, uint24_t.mk.injEq]
    exact ⟨Nat.mod_eq_of_lt (rgb16_r_lt px), Nat.mod_eq_of_lt (rgb16_g_lt px),
      Nat.mod_eq_of_lt (rgb16_b_lt px)⟩
  · decide

/-- Witness for `rgb16_to_24_exact` at `px = 0xFFFF`. -/
theorem rgb16_to_24_exact_witness :
    (0xffff : Nat) < 65536 ∧
      rgb16_to_24 0xffff =
        ⟨(0xffff &&& 0xf800) >>> 8, (0xffff &&& 0x7e0) >>> 3,
         (0xffff &&& 0x1f) <<< 3⟩ :=
  ⟨by decide, rgb16_to_24_exact.1 0xffff (by decide)⟩

lemma and_255_eq_mod (n : Nat) : n &&& 255 = n % 256 := by
  have h := Nat.and_pow_two_sub_one_eq_mod n 8
  norm_num at h
  exact h

/-- **C2.** For every 32-bit source pixel `px`, the 32-bit-to-24-bit
conversion produces exactly `b = px &&& 0xFF`, `g = (px >>> 8) &&& 0xFF`,
`r = (px >>> 16) &&& 0xFF`; the top 8 bits (alpha) have no effect on the
result (the conversion only depends on `px % 2^24`); and
`px = 0x00112233` yields `(r, g, b) = (17, 34, 51)`. -/
theorem rgb32_to_24_exact :
    (∀ px : Nat,
      rgb32_to_24 px =
        ⟨(px >>> 16) &&& 0xff, (px >>> 8) &&& 0xff, px &&& 0xff⟩) ∧
    (∀ px : Nat, rgb32_to_24 px = rgb32_to_24 (px % 16777216)) ∧
    rgb32_to_24 0x00112233 = ⟨17, 34, 51⟩ := by
  refine ⟨?_, ?_, by decide⟩
  · intro px
    simp only [rgb32_to_24, uint24_t.mk.injEq]
    refine ⟨Nat.mod_eq_of_lt ?_, Nat.mod_eq_of_lt ?_, Nat.mod_eq_of_lt ?_⟩ <;>
      exact lt_of_le_of_lt Nat.and_le_right (by norm_num)
  · intro px
    simp only [rgb32_to_24, uint24_t.mk.injEq, and_255_eq_mod,
      Nat.shiftRight_eq_div_pow]
    norm_num
    omega

end Kmsgrab

namespace Kmsgrab

lemma readWords_length (n len : Nat) (mem : List Nat) :
    (readWords n len mem).length = len := by
  induction len generalizing mem with
  | zero => rfl
  | succ k ih => simp [readWords, ih]

lemma convert_to_24_length (fb : drmModeFB) (mem : List Nat) :
    (convert_to_24 fb mem).length = fb.width * fb.height := by
  unfold convert_to_24
  split <;> simp [readWords_length]

lemma pixelBytes_length (p : uint24_t) : (pixelBytes p).length = 3 := rfl

lemma flatten_pixelBytes_length (l : List uint24_t) :
    ((l.map pixelBytes).flatten).length = 3 * l.length := by
  induction l with
  | nil => rfl
  | cons a t ih =>
    simp only [List.map_cons, List.flatten_cons, List.length_append,
      List.length_cons, pixelBytes_length, ih]
    ring

lemma convertBytes_length (fb : drmModeFB) (mem : List Nat) :
    (convertBytes fb mem).length = fb.width * fb.height * 3 := by
  rw [convertBytes, flatten_pixelBytes_length, convert_to_24_length]
  ring

lemma take3_cons {α : Type} (x y z : α) (r : List α) :
    (x :: y :: z :: r).take 3 = [x, y, z] := rfl

lemma drop3_cons {α : Type} (x y z : α) (r : List α) (m : Nat) :
    (x :: y :: z :: r).drop (m + 3) = r.drop m := rfl

lemma flatten_pixelBytes_cons (a : uint24_t) (t : List uint24_t) :
    (((a :: t).map pixelBytes).flatten) =
      a.r :: a.g :: a.b :: (t.map pixelBytes).flatten := by
  simp [pixelBytes]

lemma flatten_drop_take (l : List uint24_t) (k : Nat) (h : k < l.length) :
    (((l.map pixelBytes).flatten).drop (3 * k)).take 3 =
      pixelBytes (l.get ⟨k, h⟩) := by
  induction l generalizing k with
  | nil => simp at h
  | cons a t ih =>
    cases k with
    | zero =>
      rw [Nat.mul_zero, List.drop_zero, flatten_pixelBytes_cons, take3_cons]
      rfl
    | succ m =>
      have hm : m < t.length := Nat.lt_of_succ_lt_succ (by simpa using h)
      have h3 : 3 * (m + 1) = 3 * m + 3 := by ring
      rw [h3, flatten_pixelBytes_cons, drop3_cons]
      have e2 : (a :: t).get ⟨m + 1, h⟩ = t.get ⟨m, hm⟩ := rfl
      rw [e2]
      exact ih m hm

end Kmsgrab

namespace Kmsgrab

lemma save_png_cases (e : Env) (fb : drmModeFB) :
    ((save_png e fb).outcome = Outcome.success ∧
      (save_png e fb).file = FileState.complete ∧
      (save_png e fb).sink = some (fb.width, fb.height, convertBytes fb e.mem) ∧
      (save_png e fb).events =
        [Event.mmapBuffer, Event.dropPrivileges, Event.openOutput,
          Event.writeHeader, Event.invokeSink, Event.closeOutput]) ∨
    ((save_png e fb).outcome = Outcome.failure ∧
      (save_png e fb).file ≠ FileState.complete ∧
      (save_png e fb).sink = none ∧
      ((save_png e fb).events = [] ∨
       (save_png e fb).events = [Event.mmapBuffer, Event.dropPrivileges] ∨
       (save_png e fb).events =
         [Event.mmapBuffer, Event.dropPrivileges, Event.openOutput,
           Event.closeOutput] ∨
       (save_png e fb).events =
         [Event.mmapBuffer, Event.dropPrivileges, Event.openOutput,
           Event.writeHeader, Event.closeOutput])) := by
  unfold save_png
  split_ifs <;> simp

lemma main_run_shape (e : Env) :
    main_run e = ⟨Outcome.failure, [], FileState.absent, none⟩ ∨
    main_run e = ⟨Outcome.crash, [], FileState.absent, none⟩ ∨
    ∃ fb, e.fbLookup = some fb ∧
      main_run e =
        ⟨(save_png e fb).outcome, Event.acquireExport :: (save_png e fb).events,
          (save_png e fb).file, (save_png e fb).sink⟩ := by
  unfold main_run
  rcases h1 : (locate_device e.cards).1 with _ | s
  · left ; rfl
  · cases ha : e.atomicOk with
    | false => simp [ha]
    | true =>
      cases hp : e.planesOk with
      | false => simp [ha, hp]
      | true =>
        rcases hr : e.resources with _ | crtcs
        · simp [ha, hp]
        · rcases hf : find_crtc crtcs with fb_id | _ | _
          · rcases hl : e.fbLookup with _ | fb
            · simp [ha, hp, hf]
            · cases hpr : e.primeOk with
              | false => simp [ha, hp, hf, hpr]
              | true =>
                right ; right
                exact ⟨fb, rfl, by simp [ha, hp, hf, hpr]⟩
          · simp [ha, hp, hf]
          · simp [ha, hp, hf]

end Kmsgrab

namespace Kmsgrab

/-- **C3 counterexample.**  The claim says a framebuffer whose bpp is
neither 16 nor 32 makes the conversion stage fail with
`UnsupportedPixelFormat` and produce no image.  In the code there is no such
error path: for the 1x1 framebuffer `fb24` with bpp = 24, `convert_to_24`
produces a complete one-pixel image (interpreting the buffer with the 32-bit
recipe), and the byte output has the full length `1 * 1 * 3`. -/
theorem convert_bpp24_produces_image :
    convert_to_24 fb24 [0x33, 0x22, 0x11, 0x00] = [⟨0x11, 0x22, 0x33⟩] ∧
    (convertBytes fb24 [0x33, 0x22, 0x11, 0x00]).length = 1 * 1 * 3 := by
  decide

/-- **C3 (amended).**  For every framebuffer whose bpp is neither 16 nor 32,
`convert_to_24` does not fail: it silently interprets the buffer exactly as
in the bpp = 32 case and produces a full `width * height`-pixel image. -/
theorem convert_other_bpp_is_32bit :
    ∀ (fb : drmModeFB) (mem : List Nat), fb.bpp ≠ 16 → fb.bpp ≠ 32 →
      convert_to_24 fb mem =
        convert_to_24 ⟨fb.width, fb.height, 32, fb.handle⟩ mem ∧
      (convert_to_24 fb mem).length = fb.width * fb.height := by
  intro fb mem h16 _
  refine ⟨?_, convert_to_24_length fb mem⟩
  simp [convert_to_24, h16]

/-- Witness for `convert_other_bpp_is_32bit` at the bpp = 24 framebuffer. -/
theorem convert_other_bpp_is_32bit_witness :
    fb24.bpp ≠ 16 ∧ fb24.bpp ≠ 32 ∧
      (convert_to_24 fb24 [0x33, 0x22, 0x11, 0x00] =
        convert_to_24 ⟨fb24.width, fb24.height, 32, fb24.handle⟩
          [0x33, 0x22, 0x11, 0x00] ∧
       (convert_to_24 fb24 [0x33, 0x22, 0x11, 0x00]).length =
         fb24.width * fb24.height) :=
  ⟨by decide, by decide,
    convert_other_bpp_is_32bit fb24 [0x33, 0x22, 0x11, 0x00]
      (by decide) (by decide)⟩

/-- **C10.**  For every framebuffer whose bpp is not 16 (including values
other than 32), `convert_to_24` behaves exactly as for bpp = 32 on the same
input buffer: the dispatch tests only `bpp == 16` and everything else takes
the 32-bit branch. -/
theorem convert_non16_eq_32 :
    ∀ (fb : drmModeFB) (mem : List Nat), fb.bpp ≠ 16 →
      convert_to_24 fb mem =
        convert_to_24 ⟨fb.width, fb.height, 32, fb.handle⟩ mem := by
  intro fb mem h16
  simp [convert_to_24, h16]

/-- Witness for `convert_non16_eq_32` at a bpp = 24 framebuffer. -/
theorem convert_non16_eq_32_witness :
    fb24.bpp ≠ 16 ∧
      convert_to_24 fb24 [0x33, 0x22, 0x11, 0x00] =
        convert_to_24 ⟨fb24.width, fb24.height, 32, fb24.handle⟩
          [0x33, 0x22, 0x11, 0x00] :=
  ⟨by decide, convert_non16_eq_32 fb24 [0x33, 0x22, 0x11, 0x00] (by decide)⟩

/-- **C4.**  Output discovery examines the CRTCs in enumeration order and
selects the first one whose bound framebuffer id is non-zero (`find_crtc`
agrees with `List.find?` for non-zero on the `buffer_id` sequence when every
query succeeds); and if every CRTC's framebuffer id is zero, the run fails
and the image sink is never invoked. -/
theorem output_discovery_first_nonzero :
    (∀ (bids : List Nat) (b : Nat),
      bids.find? (fun x => x != 0) = some b →
      find_crtc (bids.map Option.some) = CrtcScan.found b) ∧
    (∀ bids : List Nat,
      bids.find? (fun x => x != 0) = none →
      find_crtc (bids.map Option.some) = CrtcScan.noneFound) ∧
    (∀ (e : Env) (crtcs : List (Option Nat)),
      e.resources = some crtcs → find_crtc crtcs = CrtcScan.noneFound →
      (main_run e).outcome = Outcome.failure ∧ (main_run e).sink = none ∧
      Event.invokeSink ∉ (main_run e).events) := by
  refine ⟨?_, ?_, ?_⟩
  · intro bids
    induction bids with
    | nil => intro b h ; simp at h
    | cons a rest ih =>
      intro b h
      by_cases ha : a = 0
      · subst ha
        rw [List.find?_cons_of_neg rest (by decide)] at h
        simpa [find_crtc] using ih b h
      · rw [List.find?_cons_of_pos rest (by simpa using ha)] at h
        cases h
        simp [find_crtc, ha]
  · intro bids
    induction bids with
    | nil => intro _ ; rfl
    | cons a rest ih =>
      intro h
      by_cases ha : a = 0
      · subst ha
        rw [List.find?_cons_of_neg rest (by decide)] at h
        simpa [find_crtc] using ih h
      · rw [List.find?_cons_of_pos rest (by simpa using ha)] at h
        cases h
  · intro e crtcs hres hnone
    unfold main_run
    rcases h1 : (locate_device e.cards).1 with _ | s
    · simp
    · cases ha : e.atomicOk with
      | false => simp [ha]
      | true =>
        cases hp : e.planesOk with
        | false => simp [ha, hp]
        | true => simp [ha, hp, hres, hnone]

/-- Witness for `output_discovery_first_nonzero`: the sequence `[0, 7]`
selects `7`, `[0, 0]` selects nothing, and in the environment whose two
CRTCs both report `buffer_id == 0` the run fails without invoking the
sink. -/
theorem output_discovery_first_nonzero_witness :
    ([0, 7] : List Nat).find? (fun x => x != 0) = some 7 ∧
    find_crtc ([0, 7].map Option.some) = CrtcScan.found 7 ∧
    ([0, 0] : List Nat).find? (fun x => x != 0) = none ∧
    find_crtc ([0, 0].map Option.some) = CrtcScan.noneFound ∧
    envNoActive.resources = some [some 0, some 0] ∧
    find_crtc [some 0, some 0] = CrtcScan.noneFound ∧
    ((main_run envNoActive).outcome = Outcome.failure ∧
      (main_run envNoActive).sink = none ∧
      Event.invokeSink ∉ (main_run envNoActive).events) :=
  ⟨by decide, output_discovery_first_nonzero.1 [0, 7] 7 (by decide),
   by decide, output_discovery_first_nonzero.2.1 [0, 0] (by decide),
   by decide, by decide,
   output_discovery_first_nonzero.2.2 envNoActive [some 0, some 0]
     (by decide) (by decide)⟩

/-- **C5 (code bug).**  When `drmModeGetCrtc` returns NULL for a CRTC during
output discovery, the code reads `crtc->buffer_id` without any NULL check,
so the run crashes instead of signalling a query failure: in the environment
whose only CRTC query fails, the outcome is `crash`. -/
theorem crtc_query_null_crashes :
    find_crtc [none] = CrtcScan.crash ∧
    (main_run envCrtcNull).outcome = Outcome.crash := by
  decide

/-- **C6 (code bug).**  After the capability scan breaks with an open
descriptor to the selected card, `main` re-opens the same device path
without closing the first descriptor: with a single capable card, device
location performs two opens of card 0 and no close, leaving two handles
open instead of one. -/
theorem device_scan_double_open :
    locate_device [true] =
      (some 0, [DevEvent.openDev 0, DevEvent.openDev 0]) ∧
    openHandles 0 (locate_device [true]).2 = 2 := by
  decide

end Kmsgrab

namespace Kmsgrab

/-- **C7.**  In every run, dropping privileges happens strictly after the
export descriptor is acquired, and the output path is opened strictly after
privileges are dropped: whenever `dropPrivileges` occurs it is preceded by
`acquireExport`, and whenever `openOutput` occurs the trace decomposes as
`... acquireExport ... dropPrivileges ... openOutput ...` with `openOutput`
occurring exactly once — the output file is never opened while the process
still holds elevated privileges. -/
theorem priv_drop_ordering :
    ∀ e : Env,
      (Event.dropPrivileges ∈ (main_run e).events →
        ∃ l1 l2, (main_run e).events = l1 ++ Event.acquireExport :: l2 ∧
          Event.dropPrivileges ∈ l2) ∧
      (Event.openOutput ∈ (main_run e).events →
        ∃ l1 l2 l3 l4,
          (main_run e).events =
            l1 ++ Event.acquireExport ::
              (l2 ++ Event.dropPrivileges :: (l3 ++ Event.openOutput :: l4)) ∧
          (main_run e).events.count Event.openOutput = 1) := by
  intro e
  rcases main_run_shape e with h | h | ⟨fb, _, h⟩
  · rw [h] ; exact ⟨fun hmem => absurd hmem (by decide),
      fun hmem => absurd hmem (by decide)⟩
  · rw [h] ; exact ⟨fun hmem => absurd hmem (by decide),
      fun hmem => absurd hmem (by decide)⟩
  · rcases save_png_cases e fb with ⟨_, _, _, hev⟩ | ⟨_, _, _, hev⟩
    · rw [h]
      simp only [hev]
      refine ⟨fun _ => ⟨[], _, rfl, by decide⟩, fun _ => ?_⟩
      exact ⟨[], [Event.mmapBuffer], [],
        [Event.writeHeader, Event.invokeSink, Event.closeOutput],
        by decide, by decide⟩
    · rcases hev with hev | hev | hev | hev <;> rw [h] <;> simp only [hev]
      · exact ⟨fun hmem => absurd hmem (by decide),
          fun hmem => absurd hmem (by decide)⟩
      · exact ⟨fun _ => ⟨[], _, rfl, by decide⟩,
          fun hmem => absurd hmem (by decide)⟩
      · exact ⟨fun _ => ⟨[], _, rfl, by decide⟩,
          fun _ => ⟨[], [Event.mmapBuffer], [], [Event.closeOutput],
            by decide, by decide⟩⟩
      · exact ⟨fun _ => ⟨[], _, rfl, by decide⟩,
          fun _ => ⟨[], [Event.mmapBuffer], [],
            [Event.writeHeader, Event.closeOutput], by decide, by decide⟩⟩

/-- Witness for `priv_drop_ordering` in the all-successful environment. -/
theorem priv_drop_ordering_witness :
    Event.openOutput ∈ (main_run envAllOk).events ∧
    (∃ l1 l2 l3 l4,
      (main_run envAllOk).events =
        l1 ++ Event.acquireExport ::
          (l2 ++ Event.dropPrivileges :: (l3 ++ Event.openOutput :: l4)) ∧
      (main_run envAllOk).events.count Event.openOutput = 1) :=
  ⟨by decide, (priv_drop_ordering envAllOk).2 (by decide)⟩

/-- **C8 counterexample.**  The claim says that on any failure either the
full conversion succeeds before the sink is invoked, or the stage fails
before the destination file is created or written to.  But when the
`row_pointers` allocation fails, the run fails after `fopen` has created the
output file and `png_write_info` has written the PNG header into it: a
partial (header-only) file remains and the sink is never invoked. -/
theorem failed_run_leaves_partial_file :
    (main_run envRowPtrsFail).outcome = Outcome.failure ∧
    (main_run envRowPtrsFail).file = FileState.headerOnly ∧
    (main_run envRowPtrsFail).sink = none := by
  decide

/-- **C8 (amended).**  On any unsuccessful run no file containing the
complete image remains — the output file is absent, empty, or holds only
the PNG header — and the sink is never invoked; failures after the output
file is opened do, however, leave such a partial file behind. -/
theorem no_complete_file_on_failure :
    ∀ e : Env, (main_run e).outcome ≠ Outcome.success →
      (main_run e).file ≠ FileState.complete ∧ (main_run e).sink = none := by
  intro e hne
  rcases main_run_shape e with h | h | ⟨fb, _, h⟩
  · simp [h]
  · simp [h]
  · rcases save_png_cases e fb with ⟨ho, _, _, _⟩ | ⟨_, hf, hs, _⟩
    · exact absurd (by simp [h, ho]) hne
    · simp [h, hf, hs]

/-- Witness for `no_complete_file_on_failure` in the environment where the
`row_pointers` allocation fails. -/
theorem no_complete_file_on_failure_witness :
    (main_run envRowPtrsFail).outcome ≠ Outcome.success ∧
    ((main_run envRowPtrsFail).file ≠ FileState.complete ∧
      (main_run envRowPtrsFail).sink = none) :=
  ⟨by decide, no_complete_file_on_failure envRowPtrsFail (by decide)⟩

/-- **C9.**  For every framebuffer, the converted byte buffer has length
exactly `width * height * 3`, pixel `k` (row-major) occupies bytes
`3k .. 3k+2` (stride `width * 3`, no padding), and whatever the sink
receives is exactly the source framebuffer's dimensions together with the
fully converted byte buffer. -/
theorem conversion_output_dimensions :
    ∀ (fb : drmModeFB) (mem : List Nat),
      (convertBytes fb mem).length = fb.width * fb.height * 3 ∧
      (∀ k, ∀ hk : k < fb.width * fb.height,
        ((convertBytes fb mem).drop (3 * k)).take 3 =
          pixelBytes ((convert_to_24 fb mem).get
            ⟨k, by rw [convert_to_24_length] ; exact hk⟩)) ∧
      (∀ (e : Env) (w h : Nat) (d : List Nat),
        (main_run e).sink = some (w, h, d) →
        ∃ fb2, e.fbLookup = some fb2 ∧ w = fb2.width ∧ h = fb2.height ∧
          d = convertBytes fb2 e.mem) := by
  intro fb mem
  refine ⟨convertBytes_length fb mem, ?_, ?_⟩
  · intro k hk
    exact flatten_drop_take (convert_to_24 fb mem) k
      (by rw [convert_to_24_length] ; exact hk)
  · intro e w h d hsink
    rcases main_run_shape e with hsh | hsh | ⟨fb2, hfb, hsh⟩
    · rw [hsh] at hsink ; simp at hsink
    · rw [hsh] at hsink ; simp at hsink
    · simp only [hsh] at hsink
      rcases save_png_cases e fb2 with ⟨_, _, hs, _⟩ | ⟨_, _, hs, _⟩
      · rw [hs] at hsink
        simp only [Option.some.injEq, Prod.mk.injEq] at hsink
        obtain ⟨hw, hh, hd⟩ := hsink
        exact ⟨fb2, hfb, hw.symm, hh.symm, hd.symm⟩
      · rw [hs] at hsink ; simp at hsink

/-- Witness for `conversion_output_dimensions`: the 2x2 32-bpp framebuffer
on the spec's synthetic buffer, and the sink arguments of the
all-successful run. -/
theorem conversion_output_dimensions_witness :
    (convertBytes fb2x2 mem2x2).length = fb2x2.width * fb2x2.height * 3 ∧
    ((convertBytes fb2x2 mem2x2).drop (3 * 0)).take 3 =
      pixelBytes ((convert_to_24 fb2x2 mem2x2).get ⟨0, by decide⟩) ∧
    (∃ fb2, envAllOk.fbLookup = some fb2 ∧ 1 = fb2.width ∧ 1 = fb2.height ∧
      [17, 34, 51] = convertBytes fb2 envAllOk.mem) :=
  ⟨(conversion_output_dimensions fb2x2 mem2x2).1,
   (conversion_output_dimensions fb2x2 mem2x2).2.1 0 (by decide),
   (conversion_output_dimensions fb2x2 mem2x2).2.2 envAllOk 1 1 [17, 34, 51]
     (by decide)⟩

end Kmsgrab
